import Mathlib

/-!
Shallow embedding of the Smart Study Planner (src/smart_study_planner.py,
src/auth.py, src/db.py): two SQL tables (`users`, `tasks`) modelled as lists
of rows, and the application's SQL statements modelled as pure functions on
those lists.  Dates are modelled as `Int` (days); SQLite `NULL` due dates are
`Option.none`, and the SQL three-valued comparison `due_date < today` is
false on NULL.  The bcrypt primitives `hashpw`/`checkpw` are treated as
black boxes: they are passed as function parameters.
-/

namespace SmartStudyPlanner

/-- One row of the `users` table from `create_tables` in
src/smart_study_planner.py: id (AUTOINCREMENT primary key), username,
email, password (the stored bcrypt hash). -/
structure UserRow where
  id : Nat
  username : String
  email : String
  password : String
deriving Repr, DecidableEq

abbrev UsersTable := List UserRow

/-- One row of the `tasks` table from `create_tables` in
src/smart_study_planner.py: id, user_id, task text, optional due_date,
priority, status. -/
structure TaskRow where
  id : Nat
  user_id : Nat
  task : String
  due_date : Option Int
  priority : String
  status : String
deriving Repr, DecidableEq

abbrev TasksTable := List TaskRow

/-- SQLite AUTOINCREMENT: the next id is one more than the largest id ever
used; over a table state it is max of the ids plus one. -/
def nextId (ids : List Nat) : Nat := ids.foldr max 0 + 1

def nextUserId (users : UsersTable) : Nat := nextId (users.map UserRow.id)

def nextTaskId (tasks : TasksTable) : Nat := nextId (tasks.map TaskRow.id)

/-- SQL comparison `due_date < ?` under three-valued logic: a NULL due date
compares as unknown, so the WHERE clause does not select the row. -/
def dueBefore (d : Option Int) (today : Int) : Bool :=
  match d with
  | some d => d < today
  | none => false

/-- The WHERE clause of the UPDATE in `update_overdue_tasks`:
`user_id=? AND status='Pending' AND due_date < ?`. -/
def overdueCond (user_id : Nat) (today : Int) (t : TaskRow) : Bool :=
  t.user_id == user_id && t.status == "Pending" && dueBefore t.due_date today

/-- `update_overdue_tasks(user_id)` in src/smart_study_planner.py:
`UPDATE tasks SET status='Overdue' WHERE user_id=? AND status='Pending'
AND due_date < ?` with `?` bound to `today`. -/
def update_overdue_tasks (user_id : Nat) (today : Int) (tasks : TasksTable) :
    TasksTable :=
  tasks.map fun t =>
    if overdueCond user_id today t then { t with status := "Overdue" } else t

/-- The complete action in `display_tasks`:
`UPDATE tasks SET status='Completed' WHERE id=? AND user_id=?`. -/
def complete_task (user_id : Nat) (task_id : Nat) (tasks : TasksTable) :
    TasksTable :=
  tasks.map fun t =>
    if t.id == task_id && t.user_id == user_id then
      { t with status := "Completed" }
    else t

/-- The delete action in `display_tasks`:
`DELETE FROM tasks WHERE id=? AND user_id=?`. -/
def delete_task (user_id : Nat) (task_id : Nat) (tasks : TasksTable) :
    TasksTable :=
  tasks.filter fun t => !(t.id == task_id && t.user_id == user_id)

/-- The add-task button block in src/smart_study_planner.py:
`INSERT INTO tasks (user_id, task, due_date, priority, status) VALUES
(?, ?, ?, ?, ?)` with status literally "Pending" and no validation of the
text or due date. -/
def add_task (user_id : Nat) (text : String) (due : Option Int)
    (priority : String) (tasks : TasksTable) : TasksTable :=
  tasks ++ [{ id := nextTaskId tasks, user_id := user_id, task := text,
              due_date := due, priority := priority, status := "Pending" }]

/-- `register_user(username, email, password)` in src/smart_study_planner.py:
SELECT by email; if a row exists return False without writing, else insert
one row with the hashed password and return True.  `hashpw` stands for
`bcrypt.hashpw(password, gensalt())`. -/
def register_user (hashpw : String → String)
    (username email password : String) (users : UsersTable) :
    Bool × UsersTable :=
  if users.any fun u => u.email == email then (false, users)
  else (true, users ++ [{ id := nextUserId users, username := username,
                          email := email, password := hashpw password }])

/-- `login_user(email, password)` in src/smart_study_planner.py:
SELECT by email, fetchone, then `bcrypt.checkpw(password, stored_hash)`;
returns the (id, username, email) triple on match, None otherwise.
`checkpw password hash` stands for the bcrypt verification. -/
def login_user (checkpw : String → String → Bool)
    (email password : String) (users : UsersTable) :
    Option (Nat × String × String) :=
  match users.find? (fun u => u.email == email) with
  | some u =>
      if checkpw password u.password then some (u.id, u.username, u.email)
      else none
  | none => none

/-- The column names of the DataFrame built from `SELECT * FROM tasks
WHERE user_id=?` in src/smart_study_planner.py. -/
def csv_header : List String :=
  ["id", "user_id", "task", "due_date", "priority", "status"]

def dueStr (d : Option Int) : String :=
  match d with
  | some d => toString d
  | none => ""

/-- One CSV record for a task row, in the DataFrame's column order. -/
def taskToCsvRow (t : TaskRow) : List String :=
  [toString t.id, toString t.user_id, t.task, dueStr t.due_date,
   t.priority, t.status]

/-- The CSV export block: `df.to_csv(index=False)` of the full unfiltered
DataFrame, modelled at record level: the header record followed by one
record per task. -/
def export_csv (tasks : TasksTable) : List (List String) :=
  csv_header :: tasks.map taskToCsvRow

/-- Two task rows agree on every field except possibly status. -/
def sameCore (a b : TaskRow) : Prop :=
  a.id = b.id ∧ a.user_id = b.user_id ∧ a.task = b.task ∧
  a.due_date = b.due_date ∧ a.priority = b.priority

end SmartStudyPlanner

namespace Auth

open SmartStudyPlanner

/-- `register_user` in src/auth.py over the src/db.py schema, where both
`username` and `email` carry a UNIQUE constraint: the INSERT raises
`sqlite3.IntegrityError` (caught, returning False with the statement rolled
back) exactly when either value already occurs. -/
def register_user (hashpw : String → String)
    (username email password : String) (users : UsersTable) :
    Bool × UsersTable :=
  if users.any fun u => u.username == username || u.email == email then
    (false, users)
  else (true, users ++ [{ id := nextUserId users, username := username,
                          email := email, password := hashpw password }])

end Auth

namespace SmartStudyPlanner

/-- The WHERE clause of the reconciliation UPDATE, as a proposition. -/
theorem overdueCond_eq_true_iff (user_id : Nat) (today : Int) (t : TaskRow) :
    overdueCond user_id today t = true ↔
      t.user_id = user_id ∧ t.status = "Pending" ∧
        dueBefore t.due_date today = true := by
  simp [overdueCond, and_assoc]

/-- Element i of the reconciled table, as a function of element i of the
input table. -/
theorem update_overdue_tasks_getElem (user_id : Nat) (today : Int)
    (tasks : TasksTable) (i : Nat) (t : TaskRow) (h : tasks[i]? = some t) :
    (update_overdue_tasks user_id today tasks)[i]? =
      some (if overdueCond user_id today t then { t with status := "Overdue" }
            else t) := by
  simp [update_overdue_tasks, List.getElem?_map, h]

/-- Claim C2: reconciliation is idempotent: running `update_overdue_tasks`
twice with the same user and today gives the same table as running it
once. -/
theorem update_overdue_tasks_idempotent (user_id : Nat) (today : Int)
    (tasks : TasksTable) :
    update_overdue_tasks user_id today (update_overdue_tasks user_id today tasks) =
      update_overdue_tasks user_id today tasks := by
  unfold update_overdue_tasks
  rw [List.map_map]
  apply List.map_congr_left
  intro t ht
  by_cases h : overdueCond user_id today t
  · simp only [Function.comp_apply, h, if_pos]
    have h2 : overdueCond user_id today { t with status := "Overdue" } = false := by
      simp [overdueCond]
    simp [h2]
  · simp [Function.comp_apply, h]

/-- Claim C1: reconciliation changes exactly the tasks owned by `user_id`
that are Pending with a due date strictly before today, setting their
status to Overdue; a Pending task due yesterday becomes Overdue, and a
task with a NULL due date is never touched. -/
theorem update_overdue_tasks_exact (user_id : Nat) (today : Int)
    (tasks : TasksTable) (i : Nat) (t : TaskRow) (h : tasks[i]? = some t) :
    (t.user_id = user_id ∧ t.status = "Pending" ∧
        dueBefore t.due_date today = true →
      (update_overdue_tasks user_id today tasks)[i]? =
        some { t with status := "Overdue" }) ∧
    (¬(t.user_id = user_id ∧ t.status = "Pending" ∧
        dueBefore t.due_date today = true) →
      (update_overdue_tasks user_id today tasks)[i]? = some t) ∧
    (t.user_id = user_id ∧ t.status = "Pending" ∧
        t.due_date = some (today - 1) →
      (update_overdue_tasks user_id today tasks)[i]? =
        some { t with status := "Overdue" }) ∧
    (t.due_date = none →
      (update_overdue_tasks user_id today tasks)[i]? = some t) := by
  have hget := update_overdue_tasks_getElem user_id today tasks i t h
  refine ⟨?_, ?_, ?_, ?_⟩
  · intro hc
    rw [hget, if_pos ((overdueCond_eq_true_iff user_id today t).mpr hc)]
  · intro hc
    rw [hget, if_neg fun hb => hc ((overdueCond_eq_true_iff user_id today t).mp hb)]
  · rintro ⟨h1, h2, h3⟩
    have hd : dueBefore t.due_date today = true := by
      rw [h3]; simp [dueBefore]
    rw [hget, if_pos ((overdueCond_eq_true_iff user_id today t).mpr ⟨h1, h2, hd⟩)]
  · intro hn
    have hd : dueBefore t.due_date today = false := by rw [hn]; rfl
    have hc : overdueCond user_id today t = false := by
      simp [overdueCond, hd]
    rw [hget, hc, if_neg]
    simp

/-- Concrete run of C1: a Pending task of user 7 due on day 9 is Overdue
after reconciliation on day 10. -/
theorem update_overdue_tasks_exact_witness :
    (update_overdue_tasks 7 10
        [⟨1, 7, "read chapter 1", some 9, "High", "Pending"⟩])[0]? =
      some ⟨1, 7, "read chapter 1", some 9, "High", "Overdue"⟩ :=
  (update_overdue_tasks_exact 7 10 _ 0 _ rfl).1 (by decide)

/-- Claim C3: reconciliation never changes a task whose status is not
Pending; in particular a Completed task is never reverted to Overdue. -/
theorem update_overdue_tasks_nonpending (user_id : Nat) (today : Int)
    (tasks : TasksTable) (i : Nat) (t : TaskRow) (h : tasks[i]? = some t)
    (hs : t.status ≠ "Pending") :
    (update_overdue_tasks user_id today tasks)[i]? = some t := by
  have hget := update_overdue_tasks_getElem user_id today tasks i t h
  have hc : overdueCond user_id today t = false := by
    simp [overdueCond, hs]
  rw [hget, hc, if_neg]
  simp

/-- Concrete run of C3: a Completed task stays Completed through
reconciliation. -/
theorem update_overdue_tasks_nonpending_witness :
    (update_overdue_tasks 7 100
        [⟨1, 7, "read chapter 1", some 9, "High", "Completed"⟩])[0]? =
      some ⟨1, 7, "read chapter 1", some 9, "High", "Completed"⟩ :=
  update_overdue_tasks_nonpending 7 100 _ 0 _ rfl (by decide)

/-- Claim C4: ownership isolation.  Task ids are unique (PRIMARY KEY), so
when a user who does not own the task with id `task_id` presses complete or
delete on it, the UPDATE and the DELETE match zero rows and the whole table
is unchanged. -/
theorem ownership_isolation (user_id task_id : Nat) (tasks : TasksTable)
    (hids : (tasks.map TaskRow.id).Nodup) (t : TaskRow) (ht : t ∈ tasks)
    (hid : t.id = task_id) (hown : t.user_id ≠ user_id) :
    complete_task user_id task_id tasks = tasks ∧
    delete_task user_id task_id tasks = tasks := by
  have key : ∀ s ∈ tasks, (s.id == task_id && s.user_id == user_id) = false := by
    intro s hs
    by_cases hsid : s.id = task_id
    · have hst : s = t := by
        apply List.inj_on_of_nodup_map hids hs ht
        rw [hsid, hid]
      rw [hst]
      simp [hown]
    · simp [hsid]
  constructor
  · unfold complete_task
    conv_rhs => rw [← List.map_id tasks]
    apply List.map_congr_left
    intro s hs
    simp [key s hs]
  · unfold delete_task
    rw [List.filter_eq_self]
    intro s hs
    simp [key s hs]

/-- Concrete run of C4: user 6 pressing complete or delete on task 1 of
user 5 changes nothing. -/
theorem ownership_isolation_witness :
    complete_task 6 1 [⟨1, 5, "essay", none, "Low", "Pending"⟩] =
        [⟨1, 5, "essay", none, "Low", "Pending"⟩] ∧
    delete_task 6 1 [⟨1, 5, "essay", none, "Low", "Pending"⟩] =
        [⟨1, 5, "essay", none, "Low", "Pending"⟩] :=
  ownership_isolation 6 1 _ (by decide) ⟨1, 5, "essay", none, "Low", "Pending"⟩
    (by decide) rfl (by decide)

/-- Claim C7: adding a task appends exactly one Pending row carrying the
given user, text, due date and priority (any text and any due date are
accepted, with no validation), and every pre-existing task is unchanged. -/
theorem add_task_spec (user_id : Nat) (text : String) (due : Option Int)
    (priority : String) (tasks : TasksTable) :
    (add_task user_id text due priority tasks).length = tasks.length + 1 ∧
    (add_task user_id text due priority tasks).take tasks.length = tasks ∧
    (add_task user_id text due priority tasks)[tasks.length]? =
      some { id := nextTaskId tasks, user_id := user_id, task := text,
             due_date := due, priority := priority, status := "Pending" } := by
  unfold add_task
  refine ⟨by simp, ?_, ?_⟩
  · rw [List.take_left]
  · rw [List.getElem?_concat_length]

/-- Claim C8: the CSV export of a table of N tasks has exactly N records
plus one header record, the header being exactly the six column names of
the tasks DataFrame; every record has six fields. -/
theorem export_csv_spec (tasks : TasksTable) :
    (export_csv tasks).length = tasks.length + 1 ∧
    (export_csv tasks).head? =
      some ["id", "user_id", "task", "due_date", "priority", "status"] ∧
    ∀ r ∈ export_csv tasks, r.length = 6 := by
  refine ⟨by simp [export_csv], by simp [export_csv, csv_header], ?_⟩
  intro r hr
  rcases List.mem_cons.mp hr with h | h
  · rw [h]; rfl
  · obtain ⟨t, _, rfl⟩ := List.mem_map.mp h
    rfl

/-- Concrete run of C8: the header record of an export has six fields. -/
theorem export_csv_spec_witness :
    (["id", "user_id", "task", "due_date", "priority", "status"] :
      List String).length = 6 :=
  (export_csv_spec [⟨1, 7, "read chapter 1", some 9, "High", "Pending"⟩]).2.2
    ["id", "user_id", "task", "due_date", "priority", "status"] (by decide)

/-- Claim C9: no operation of the system modifies any field of an existing
task other than its status: reconciliation and complete keep id, user id,
text, due date and priority of every row; delete only removes whole rows
(every surviving row was already in the table); add leaves every
pre-existing row untouched. -/
theorem fields_immutable (user_id task_id : Nat) (today : Int)
    (text : String) (due : Option Int) (priority : String)
    (tasks : TasksTable) (i : Nat) (t : TaskRow) (h : tasks[i]? = some t) :
    (∃ t2, (update_overdue_tasks user_id today tasks)[i]? = some t2 ∧
      sameCore t t2) ∧
    (∃ t2, (complete_task user_id task_id tasks)[i]? = some t2 ∧
      sameCore t t2) ∧
    (∀ s ∈ delete_task user_id task_id tasks, s ∈ tasks) ∧
    (add_task user_id text due priority tasks)[i]? = some t := by
  have hi : i < tasks.length := by
    rcases List.getElem?_eq_some.mp h with ⟨hlt, _⟩
    exact hlt
  refine ⟨?_, ?_, ?_, ?_⟩
  · refine ⟨_, update_overdue_tasks_getElem user_id today tasks i t h, ?_⟩
    by_cases hc : overdueCond user_id today t
    · simp only [hc, if_pos]
      exact ⟨rfl, rfl, rfl, rfl, rfl⟩
    · simp only [hc, if_neg]
      exact ⟨rfl, rfl, rfl, rfl, rfl⟩
  · have hget : (complete_task user_id task_id tasks)[i]? =
        some (if t.id == task_id && t.user_id == user_id then
          { t with status := "Completed" } else t) := by
      simp [complete_task, List.getElem?_map, h]
    refine ⟨_, hget, ?_⟩
    by_cases hc : (t.id == task_id && t.user_id == user_id) = true
    · simp only [hc, if_pos]
      exact ⟨rfl, rfl, rfl, rfl, rfl⟩
    · simp only [hc, if_neg]
      exact ⟨rfl, rfl, rfl, rfl, rfl⟩
  · intro s hs
    exact List.mem_of_mem_filter hs
  · unfold add_task
    rw [List.getElem?_append, if_pos hi]
    exact h

/-- Concrete run of C9: reconciling on day 100 keeps every field but
status of a Pending task due day 9. -/
theorem fields_immutable_witness :
    (add_task 7 "notes" none "Low"
        [⟨1, 7, "read chapter 1", some 9, "High", "Pending"⟩])[0]? =
      some ⟨1, 7, "read chapter 1", some 9, "High", "Pending"⟩ :=
  (fields_immutable 7 1 100 "notes" none "Low" _ 0 _ rfl).2.2.2

/-- When the email column is duplicate-free (the schema's UNIQUE
constraint), the SELECT-by-email fetchone finds exactly the row with that
email. -/
theorem find_by_email_unique (users : UsersTable) (email : String)
    (hemail : (users.map UserRow.email).Nodup) (u : UserRow)
    (hu : u ∈ users) (he : u.email = email) :
    users.find? (fun v => v.email == email) = some u := by
  induction users with
  | nil => cases hu
  | cons v rest ih =>
    rw [List.map_cons, List.nodup_cons] at hemail
    rcases List.mem_cons.mp hu with h1 | h2
    · subst h1
      exact List.find?_cons_of_pos _ (by simpa using he)
    · have hv : ¬ v.email = email := by
        intro hveq
        apply hemail.1
        rw [hveq, ← he]
        exact List.mem_map_of_mem UserRow.email h2
      rw [List.find?_cons_of_neg _ (by simpa using hv)]
      exact ih hemail.2 h2

/-- Claim C6: login returns the (id, username, email) triple of the stored
user exactly when a user with that email exists and the password verifies
against its stored hash; a missing email and a wrong password both yield
the same None. -/
theorem login_user_spec (checkpw : String → String → Bool)
    (email pw : String) (users : UsersTable)
    (hemail : (users.map UserRow.email).Nodup) :
    (∀ u ∈ users, u.email = email → checkpw pw u.password = true →
      login_user checkpw email pw users = some (u.id, u.username, u.email)) ∧
    ((∀ u ∈ users, u.email ≠ email) →
      login_user checkpw email pw users = none) ∧
    (∀ u ∈ users, u.email = email → checkpw pw u.password = false →
      login_user checkpw email pw users = none) := by
  refine ⟨?_, ?_, ?_⟩
  · intro u hu he hck
    unfold login_user
    rw [find_by_email_unique users email hemail u hu he]
    simp [hck]
  · intro hno
    unfold login_user
    have : users.find? (fun v => v.email == email) = none := by
      rw [List.find?_eq_none]
      intro v hv
      simp [hno v hv]
    rw [this]
  · intro u hu he hck
    unfold login_user
    rw [find_by_email_unique users email hemail u hu he]
    simp [hck]

/-- Concrete run of C6: correct credentials return the identity triple. -/
theorem login_user_spec_witness :
    login_user (fun p h => p == h) "a@x.com" "secret1"
        [⟨1, "alice", "a@x.com", "secret1"⟩] = some (1, "alice", "a@x.com") :=
  (login_user_spec (fun p h => p == h) "a@x.com" "secret1" _ (by decide)).1
    ⟨1, "alice", "a@x.com", "secret1"⟩ (by decide) rfl rfl

/-- Refutation for claim C5: the live `register_user` in
src/smart_study_planner.py checks only the email.  With user "alice"
already registered under a@x.com, registering again as "alice" with the
fresh email b@x.com succeeds and inserts a second row, so registration
does NOT fail whenever the username already exists. -/
theorem register_user_duplicate_username_counterexample :
    (([⟨1, "alice", "a@x.com", "H1"⟩] : UsersTable).any
        fun u => u.username == "alice") = true ∧
    (register_user (fun _ => "H2") "alice" "b@x.com" "pw"
        [⟨1, "alice", "a@x.com", "H1"⟩]).fst = true ∧
    (register_user (fun _ => "H2") "alice" "b@x.com" "pw"
        [⟨1, "alice", "a@x.com", "H1"⟩]).snd.length = 2 := by
  refine ⟨by decide, ?_, ?_⟩ <;> rfl

/-- Claim C5 as amended: `register_user` fails exactly when a user with the
same email already exists (a duplicate username alone is not rejected), and
on failure writes nothing; on a fresh email it inserts exactly one row, a
second registration under the same email then fails without writing, and
exactly one user row carries that email. -/
theorem register_user_email_spec (hash hash2 : String → String)
    (uname uname2 email pw pw2 : String) (users : UsersTable) :
    ((users.any fun u => u.email == email) = true →
      register_user hash uname email pw users = (false, users)) ∧
    ((users.any fun u => u.email == email) = false →
      (register_user hash uname email pw users).fst = true ∧
      (register_user hash uname email pw users).snd =
        users ++ [{ id := nextUserId users, username := uname,
                    email := email, password := hash pw }] ∧
      register_user hash2 uname2 email pw2
          (register_user hash uname email pw users).snd =
        (false, (register_user hash uname email pw users).snd) ∧
      ((register_user hash uname email pw users).snd.countP
          fun u => u.email == email) = 1) := by
  constructor
  · intro hdup
    simp [register_user, hdup]
  · intro hfresh
    have h0 : (users.countP fun u => u.email == email) = 0 := by
      rw [List.countP_eq_zero]
      intro u hu
      exact List.any_eq_false.mp hfresh u hu
    unfold register_user
    rw [if_neg (by simp [hfresh])]
    refine ⟨rfl, rfl, ?_, ?_⟩
    · rw [if_pos (by rw [List.any_append]; simp)]
    · rw [List.countP_append, h0]
      simp [List.countP_cons]

/-- Concrete run of the amended C5: registering a fresh email succeeds,
and registering the same email a second time fails with no write. -/
theorem register_user_email_spec_witness :
    register_user (fun _ => "H2") "bob" "a@x.com" "pw2"
        [⟨1, "alice", "a@x.com", "H1"⟩] =
      (false, [⟨1, "alice", "a@x.com", "H1"⟩]) :=
  (register_user_email_spec (fun _ => "H2") (fun _ => "H2") "bob" "bob"
    "a@x.com" "pw2" "pw2" [⟨1, "alice", "a@x.com", "H1"⟩]).1 (by decide)

end SmartStudyPlanner

/-- Refutation for claim C10: the two register implementations are not
behaviorally equivalent.  Against a table already holding username "alice"
(email a@x.com), registering ("alice", b@x.com): the inlined version in
src/smart_study_planner.py succeeds (it checks only the email), while the
src/auth.py version over the src/db.py schema hits the UNIQUE(username)
constraint and fails. -/
theorem register_equivalence_counterexample :
    (SmartStudyPlanner.register_user (fun _ => "H2") "alice" "b@x.com" "pw"
        [⟨1, "alice", "a@x.com", "H1"⟩]).fst = true ∧
    (Auth.register_user (fun _ => "H2") "alice" "b@x.com" "pw"
        [⟨1, "alice", "a@x.com", "H1"⟩]).fst = false := by
  exact ⟨rfl, rfl⟩

/-- Claim C10 as amended: the two register implementations agree (same
boolean and same resulting table) on every input except when the username
already exists while the email is fresh — that is, whenever the username
is fresh or the email is a duplicate. -/
theorem register_user_agree (hash : String → String)
    (uname email pw : String) (users : SmartStudyPlanner.UsersTable)
    (h : (users.any fun u => u.username == uname) = false ∨
         (users.any fun u => u.email == email) = true) :
    SmartStudyPlanner.register_user hash uname email pw users =
      Auth.register_user hash uname email pw users := by
  unfold SmartStudyPlanner.register_user Auth.register_user
  by_cases he : (users.any fun u => u.email == email) = true
  · have hc : (users.any fun u => u.username == uname || u.email == email)
        = true := by
      rw [List.any_eq_true] at he ⊢
      obtain ⟨u, hu, hp⟩ := he
      exact ⟨u, hu, by simp [hp]⟩
    simp [he, hc]
  · have he2 : (users.any fun u => u.email == email) = false :=
      Bool.eq_false_iff.mpr he
    have hn : (users.any fun u => u.username == uname) = false := by
      rcases h with h | h
      · exact h
      · exact absurd h he
    have hc : (users.any fun u => u.username == uname || u.email == email)
        = false := by
      rw [List.any_eq_false] at hn he2 ⊢
      intro u hu
      simp only [Bool.or_eq_true, not_or]
      exact ⟨hn u hu, he2 u hu⟩
    simp [he2, hc]

/-- Concrete run of the amended C10: on a fresh username and fresh email
the two implementations produce identical results. -/
theorem register_user_agree_witness :
    SmartStudyPlanner.register_user (fun _ => "H2") "bob" "b@x.com" "pw"
        [⟨1, "alice", "a@x.com", "H1"⟩] =
      Auth.register_user (fun _ => "H2") "bob" "b@x.com" "pw"
        [⟨1, "alice", "a@x.com", "H1"⟩] :=
  register_user_agree (fun _ => "H2") "bob" "b@x.com" "pw"
    [⟨1, "alice", "a@x.com", "H1"⟩] (Or.inl (by decide))
